import Mathlib

/-!
Shallow embedding of the appready identity-verification intake flow.

Strings from the TypeScript source are modelled as `List Char`; machine
numbers that feed threshold comparisons are modelled as exact rationals
(`ℚ`).  The embedding follows the source files:

* `App.tsx` (the multi-step form controller and submission coordinator),
* `VideoVerification.tsx` (the two-recording liveness component),
* `CameraCapture.tsx` (camera acquisition and the lighting heuristic).
-/

namespace AppReady

/-- JavaScript string model. -/
abbrev JStr := List Char

/-- ASCII fragment of the JavaScript `\s` (whitespace) character class. -/
def isJsSpace (c : Char) : Bool :=
  c = ' ' || c = '\t' || c = '\n' || c = '\r' || c = '\x0b' || c = '\x0c'

/-- JavaScript `String.prototype.trim`: drop whitespace from both ends. -/
def jsTrim (s : JStr) : JStr :=
  ((s.dropWhile isJsSpace).reverse.dropWhile isJsSpace).reverse

/-- JavaScript `value.replace(/\D/g, '')`: keep only decimal digits. -/
def stripNonDigits (s : JStr) : JStr := s.filter Char.isDigit

/-- The `PersonalInfo` record of `App.tsx`. -/
structure PersonalInfo where
  firstName : JStr
  lastName : JStr
  email : JStr
  address : JStr
  city : JStr
  state : JStr
  phoneNumber : JStr
  ssn : JStr
deriving Repr, DecidableEq

/-- The `PersonalInfoErrors` record of `App.tsx`: one inline error slot per
validated field, `none` meaning no error. -/
structure PersonalInfoErrors where
  fullName : Option JStr
  phoneNumber : Option JStr
  ssn : Option JStr
  email : Option JStr
deriving Repr, DecidableEq

/-- The `FormStep` union of `App.tsx`. -/
inductive FormStep
  | personal
  | documents
  | video
  | complete
deriving Repr, DecidableEq

/-- `validateFullName` from `App.tsx`: sanitize to letters and whitespace
(`replace(/[^a-zA-Z\s]/g, '')`), trim, then require length ≥ 2 and a
space character. -/
def validateFullName (fullName : JStr) : Option JStr :=
  let sanitizedName := jsTrim (fullName.filter (fun c => c.isAlpha || isJsSpace c))
  if sanitizedName.length < 2 then
    some "Full name must contain at least two characters".toList
  else if ¬ sanitizedName.contains ' ' then
    some "Please enter both first and last name".toList
  else none

/-- `validatePhoneNumber` from `App.tsx`: exactly 10 digits after stripping
non-digits. -/
def validatePhoneNumber (phoneNumber : JStr) : Option JStr :=
  let sanitizedNumber := stripNonDigits phoneNumber
  if sanitizedNumber.length ≠ 10 then
    some "Phone number must be exactly 10 digits".toList
  else none

/-- `validateSSN` from `App.tsx`: exactly 9 digits after stripping
non-digits. -/
def validateSSN (ssn : JStr) : Option JStr :=
  let sanitizedSSN := stripNonDigits ssn
  if sanitizedSSN.length ≠ 9 then
    some "SSN must be exactly 9 digits".toList
  else none

/-- Characters admitted by `[^\s@]` in the e-mail regular expression. -/
def emailAtomChar (c : Char) : Bool := ¬ isJsSpace c && c ≠ '@'

/-- Matcher for the suffix `[^\s@]+\.[^\s@]+`: all characters are atom
characters and some interior position holds a dot (a dot is itself an atom
character, so this characterizes the backtracking regex exactly). -/
def emailTailMatch (l : JStr) : Bool :=
  l.all emailAtomChar && decide (3 ≤ l.length) && (l.drop 1).dropLast.contains '.'

/-- Matcher for `/^[^\s@]+@[^\s@]+\.[^\s@]+$/` from `App.tsx`: split at the
first `@` (the part before it is a nonempty atom string) and match the rest
against `emailTailMatch`. -/
def emailMatches (s : JStr) : Bool :=
  let i := s.findIdx (· = '@')
  decide (i < s.length) && decide (0 < i) && (s.take i).all emailAtomChar
    && emailTailMatch (s.drop (i + 1))

/-- `validateEmail` from `App.tsx`. -/
def validateEmail (email : JStr) : Option JStr :=
  if ¬ emailMatches email then
    some "Please enter a valid email address".toList
  else none

/-- `formatPhoneNumber` from `App.tsx`: render the digit sequence as
`(XXX) XXX-XXXX`, mirroring the `slice` arithmetic of the source. -/
def formatPhoneNumber (value : JStr) : JStr :=
  let numbers := stripNonDigits value
  if numbers.length = 0 then []
  else if numbers.length ≤ 3 then '(' :: numbers
  else if numbers.length ≤ 6 then
    '(' :: numbers.take 3 ++ [')', ' '] ++ numbers.drop 3
  else
    '(' :: numbers.take 3 ++ [')', ' '] ++ (numbers.drop 3).take 3
      ++ ['-'] ++ (numbers.drop 6).take 4

/-- `formatSSN` from `App.tsx`: render the digit sequence as `XXX-XX-XXXX`,
mirroring the `slice` arithmetic of the source. -/
def formatSSN (value : JStr) : JStr :=
  let numbers := stripNonDigits value
  if numbers.length = 0 then []
  else if numbers.length ≤ 3 then numbers
  else if numbers.length ≤ 5 then numbers.take 3 ++ ['-'] ++ numbers.drop 3
  else
    numbers.take 3 ++ ['-'] ++ (numbers.drop 3).take 2
      ++ ['-'] ++ (numbers.drop 5).take 4

/-- `handlePersonalInfoSubmit` from `App.tsx`: run the four validators on
the current `PersonalInfo`, record all four inline-error slots, and advance
`personal → documents` exactly when every validator returns no error.  The
full name is validated on the template string `firstName ++ " " ++ lastName`. -/
def handlePersonalInfoSubmit (info : PersonalInfo) : PersonalInfoErrors × FormStep :=
  let fullNameError := validateFullName (info.firstName ++ [' '] ++ info.lastName)
  let phoneError := validatePhoneNumber info.phoneNumber
  let ssnError := validateSSN info.ssn
  let emailError := validateEmail info.email
  (⟨fullNameError, phoneError, ssnError, emailError⟩,
   if fullNameError = none ∧ phoneError = none ∧ ssnError = none ∧ emailError = none
   then FormStep.documents else FormStep.personal)

/-- A captured file (opaque binary content). -/
structure JSFile where
  bytes : List Nat
deriving Repr, DecidableEq

/-- `handleDocumentsSubmit` from `App.tsx`: advance to the video step
exactly when both captured images are present; otherwise stay put. -/
def handleDocumentsSubmit (frontId backId : Option JSFile) (step : FormStep) : FormStep :=
  match frontId, backId with
  | some _, some _ => FormStep.video
  | _, _ => step

/-- A document-capture callback of `App.tsx` (`setFrontId` / `setBackId`). -/
inductive DocEvent
  | setFront (f : JSFile)
  | setBack (f : JSFile)
deriving Repr, DecidableEq

/-- Apply one capture callback to the `(frontId, backId)` state. -/
def applyDocEvent (s : Option JSFile × Option JSFile) : DocEvent → Option JSFile × Option JSFile
  | DocEvent.setFront f => (some f, s.2)
  | DocEvent.setBack f => (s.1, some f)

/-! ## Submission coordinator (`handleSubmission` in `App.tsx`) -/

/-- An error object returned by the backend SDK (only its message is
observed by the coordinator). -/
structure SupaError where
  message : JStr
deriving Repr, DecidableEq

/-- An externally observable action of the submission coordinator. -/
inductive SubEvent
  | upload (path : JStr)
  | createSignedUrls (paths : List JStr) (ttlSeconds : Nat)
  | insert (row : List (JStr × JStr))
deriving Repr, DecidableEq

/-- The five storage paths of one submission, in the order the source lists
them: profile text, front image, back image, first video, second video. -/
def submissionPaths (folderName : JStr) : List JStr :=
  [folderName ++ "/personal_info.txt".toList,
   folderName ++ "/id_front.jpg".toList,
   folderName ++ "/id_back.jpg".toList,
   folderName ++ "/verification_1.webm".toList,
   folderName ++ "/verification_2.webm".toList]

/-- The row passed to `supabase.from('job_applications').insert(...)` in
`handleSubmission`, as the list of column/value pairs of the source's
object literal. -/
def insertRow (info : PersonalInfo) : List (JStr × JStr) :=
  [("first_name".toList, info.firstName),
   ("last_name".toList, info.lastName),
   ("address".toList, info.address),
   ("city".toList, info.city),
   ("state".toList, info.state),
   ("phone_number".toList, info.phoneNumber),
   ("status".toList, "pending".toList)]

/-- Stubbed external collaborators of one `handleSubmission` run:
the per-path storage upload outcome, the `data` field returned by
`createSignedUrls`, and the `error` field returned by the table insert. -/
structure SubmissionEnv where
  uploadError : JStr → Option SupaError
  urlData : Option (List JStr)
  insertError : Option SupaError

/-- Result of one `handleSubmission` run: the trace of external actions,
the resulting form step, and whether the failure alert was shown. -/
structure SubResult where
  trace : List SubEvent
  finalStep : FormStep
  alerted : Bool
deriving Repr, DecidableEq

/-- `handleSubmission` from `App.tsx`.  The five uploads are issued together
via `Promise.all` (all five upload events occur); if every upload succeeds
the coordinator requests signed URLs for exactly the five uploaded paths
with a 60·60-second validity, then — provided the returned `data` is not
null — performs the single table insert; any failure aborts with the alert
and leaves the step unchanged. -/
def handleSubmission (env : SubmissionEnv) (info : PersonalInfo) (folderName : JStr)
    (step : FormStep) : SubResult :=
  let paths := submissionPaths folderName
  let uploadEvents := paths.map SubEvent.upload
  if paths.all (fun p => (env.uploadError p).isNone) then
    let trace1 := uploadEvents ++ [SubEvent.createSignedUrls paths (60 * 60)]
    match env.urlData with
    | none => ⟨trace1, step, true⟩
    | some _ =>
      let trace2 := trace1 ++ [SubEvent.insert (insertRow info)]
      match env.insertError with
      | some _ => ⟨trace2, step, true⟩
      | none => ⟨trace2, FormStep.complete, false⟩
  else ⟨uploadEvents, step, true⟩

/-- Extract the row of an insert event, if any. -/
def getInsertRow : SubEvent → Option (List (JStr × JStr))
  | SubEvent.insert row => some row
  | _ => none

/-! ## Video verification (`VideoVerification.tsx`) -/

/-- The `VerificationStep` union of `VideoVerification.tsx`. -/
inductive VerificationStep
  | initial
  | error
  | retry
  | complete
deriving Repr, DecidableEq

/-- A binary blob; `size` is the byte count, as in the browser `Blob`. -/
structure VVBlob where
  data : List Nat
deriving Repr, DecidableEq

/-- `Blob.size`. -/
def VVBlob.size (b : VVBlob) : Nat := b.data.length

/-- `new Blob(chunks)`: concatenate the buffered media chunks. -/
def assembleBlob (chunks : List VVBlob) : VVBlob :=
  ⟨(chunks.map VVBlob.data).flatten⟩

/-- The component state touched by `handleRecordingComplete`. -/
structure VVState where
  currentStep : VerificationStep
  firstVideo : Option VVBlob
deriving Repr, DecidableEq

/-- Initial state of a freshly mounted `VideoVerification` component. -/
def vvInit : VVState := ⟨VerificationStep.initial, none⟩

/-- `handleRecordingComplete` from `VideoVerification.tsx`: after the first
recording store the blob and enter the error/tutorial display; after the
second recording (`retry` step) report both blobs to the parent.  The
returned pair is the `onComplete` payload `(video1, video2)`, when invoked. -/
def handleRecordingComplete (s : VVState) (blob : VVBlob) :
    VVState × Option (VVBlob × VVBlob) :=
  match s.currentStep with
  | VerificationStep.initial =>
    (⟨VerificationStep.error, some blob⟩, none)
  | VerificationStep.retry =>
    match s.firstVideo with
    | some firstVideo => (s, some (firstVideo, blob))
    | none => (s, none)
  | _ => (s, none)

/-- The `mediaRecorder.onstop` handler: assemble the buffered chunks into
one blob; if it is nonempty hand it to `handleRecordingComplete`, otherwise
only surface the transient "Recording failed" toast (third component of the
result) and change nothing. -/
def onRecorderStop (s : VVState) (chunks : List VVBlob) :
    VVState × Option (VVBlob × VVBlob) × Bool :=
  let blob := assembleBlob chunks
  if 0 < blob.size then
    let r := handleRecordingComplete s blob
    (r.1, r.2, false)
  else (s, none, true)

/-- Externally driven events of a `VideoVerification` run: a recorder stop
delivering the buffered chunks, or the user pressing "Start Again" on the
error display (which the UI renders only in the `error` step). -/
inductive VVEvent
  | stopWith (chunks : List VVBlob)
  | restart
deriving Repr, DecidableEq

/-- One event step of the component. -/
def vvStep (s : VVState) : VVEvent → VVState × Option (VVBlob × VVBlob)
  | VVEvent.stopWith chunks =>
    let r := onRecorderStop s chunks
    (r.1, r.2.1)
  | VVEvent.restart =>
    match s.currentStep with
    | VerificationStep.error => (⟨VerificationStep.retry, s.firstVideo⟩, none)
    | _ => (s, none)

/-- Drive the component through a list of events, collecting `onComplete`
payloads.  The parent (`handleVideoComplete` in `App.tsx`) closes the modal
as soon as `onComplete` fires, unmounting the component, so the run stops
at the first completion. -/
def vvRun (s : VVState) : List VVEvent → List (VVBlob × VVBlob)
  | [] => []
  | e :: rest =>
    match vvStep s e with
    | (_, some p) => [p]
    | (s2, none) => vvRun s2 rest

/-- The number of recorder stops in an event list that assemble a nonempty
blob (i.e. completed recordings). -/
def countSuccessStops : List VVEvent → Nat
  | [] => 0
  | VVEvent.stopWith chunks :: rest =>
    (if 0 < (assembleBlob chunks).size then 1 else 0) + countSuccessStops rest
  | VVEvent.restart :: rest => countSuccessStops rest

/-- The blob assembled by the first completed recording of an event list. -/
def firstSuccessBlob : List VVEvent → Option VVBlob
  | [] => none
  | VVEvent.stopWith chunks :: rest =>
    if 0 < (assembleBlob chunks).size then some (assembleBlob chunks)
    else firstSuccessBlob rest
  | VVEvent.restart :: rest => firstSuccessBlob rest

/-! ## Camera acquisition (`CameraCapture.tsx`) -/

/-- The `error.name` values distinguished by `initializeNativeCamera`. -/
inductive CamErrName
  | notAllowed
  | notFound
  | notSupported
  | other
deriving Repr, DecidableEq

/-- An exception thrown by `getUserMedia`. -/
structure CamErr where
  name : CamErrName
deriving Repr, DecidableEq

/-- A platform media stream; only the video-track count and an identity are
observed by the acquisition code. -/
structure NativeStream where
  sid : Nat
  videoTracks : Nat
deriving Repr, DecidableEq

/-- One entry of `getConstraintSets`: a facing preference, optional ideal /
max width and height, and the forced exact 16:9 aspect ratio. -/
structure ConstraintSet where
  facingUser : Bool
  widthIdeal : Option Nat
  widthMax : Option Nat
  heightIdeal : Option Nat
  heightMax : Option Nat
  aspectExact169 : Bool
deriving Repr, DecidableEq

/-- `getConstraintSets` from `CameraCapture.tsx`: four candidate constraint
sets in priority order, all forcing 16:9. -/
def getConstraintSets (isFrontCamera : Bool) : List ConstraintSet :=
  [⟨isFrontCamera, some 1920, some 1920, some 1080, some 1080, true⟩,
   ⟨isFrontCamera, some 1280, none, some 720, none, true⟩,
   ⟨isFrontCamera, some 1024, none, some 576, none, true⟩,
   ⟨isFrontCamera, none, none, none, none, true⟩]

/-- An externally observable action of `initializeNativeCamera`. -/
inductive CamEvent
  | releaseStream (sid : Nat)
  | tryConstraints (idx : Nat)
deriving Repr, DecidableEq

/-- The component state touched by `initializeNativeCamera`. -/
structure CamState where
  streamRef : Option NativeStream
  isVideoReady : Bool
  isInitializing : Bool
  cameraError : Option JStr
deriving Repr, DecidableEq

/-- The `for` loop of `initializeNativeCamera` over the indices of the
constraint sets.  `attempt i` is the (stubbed) `getUserMedia` call on
constraint set `i`.  A resolved stream with at least one video track breaks
the loop; a resolved stream with no video track is kept in the loop
variable and the next set is tried; a rejection rethrows only on the last
index.  Returns the tried indices (the trace) and either the loop-variable
stream (possibly `none`) or the rethrown error. -/
def camLoop (attempt : Nat → Except CamErr NativeStream) :
    List Nat → Option NativeStream → List Nat × Except CamErr (Option NativeStream)
  | [], cur => ([], Except.ok cur)
  | i :: rest, cur =>
    match attempt i with
    | Except.ok s =>
      if 0 < s.videoTracks then ([i], Except.ok (some s))
      else
        let r := camLoop attempt rest (some s)
        (i :: r.1, r.2)
    | Except.error e =>
      if rest = [] then ([i], Except.error e)
      else
        let r := camLoop attempt rest cur
        (i :: r.1, r.2)

/-- The user-facing message `initializeNativeCamera` derives from a thrown
error's name. -/
def camErrorMessage (e : CamErr) : JStr :=
  match e.name with
  | CamErrName.notAllowed => "Camera permission denied. Please allow camera access.".toList
  | CamErrName.notFound => "No camera found on this device.".toList
  | CamErrName.notSupported => "Camera not supported in this browser.".toList
  | CamErrName.other => "Failed to access camera".toList

/-- `initializeNativeCamera` from `CameraCapture.tsx`: release any existing
stream, try the constraint sets in order via `camLoop`, then either bind
the obtained stream (readiness follows once metadata loads) or surface the
mapped error message.  A loop that exits with no stream at all raises the
generic failure. -/
def initializeNativeCamera (attempt : Nat → Except CamErr NativeStream)
    (isFrontCamera : Bool) (s0 : CamState) : CamState × List CamEvent :=
  let releaseEvents := match s0.streamRef with
    | some s => [CamEvent.releaseStream s.sid]
    | none => []
  let n := (getConstraintSets isFrontCamera).length
  let loop := camLoop attempt (List.range n) none
  let tryEvents := loop.1.map CamEvent.tryConstraints
  match loop.2 with
  | Except.ok (some s) =>
    (⟨some s, true, false, none⟩, releaseEvents ++ tryEvents)
  | Except.ok none =>
    (⟨none, false, false, some "Failed to access camera".toList⟩,
     releaseEvents ++ tryEvents)
  | Except.error e =>
    (⟨none, false, false, some (camErrorMessage e)⟩, releaseEvents ++ tryEvents)

/-! ## Lighting heuristic (`analyzeLightingQuality` / `assessLightingQuality`) -/

/-- One sampled RGB pixel. -/
structure RGB where
  r : Nat
  g : Nat
  b : Nat
deriving Repr, DecidableEq

/-- Perceived luminance `0.299·r + 0.587·g + 0.114·b`, in exact rationals. -/
def luminance (p : RGB) : ℚ :=
  (299 / 1000 : ℚ) * p.r + (587 / 1000 : ℚ) * p.g + (114 / 1000 : ℚ) * p.b

/-- The metrics record returned by `analyzeLightingQuality`.  The source
stores `contrast = sqrt(variance)` and only ever compares it against
nonnegative thresholds; the embedding keeps the variance and compares it
against the squared thresholds, which is equivalent. -/
structure LightingMetrics where
  averageBrightness : ℚ
  variance : ℚ
  brightRatio : ℚ
  darkRatio : ℚ
  isWellLit : Bool
  hasContrast : Bool
deriving Repr, DecidableEq

/-- `analyzeLightingQuality` from `CameraCapture.tsx` over the list of
sampled pixels (the source strides every 16 bytes over a `width × height`
canvas, so the sample count is `width·height/4`, the `totalPixels` of the
source).  `contrast > 20` and `contrast > 15` become `variance > 400` and
`variance > 225`. -/
def analyzeLightingQuality (ps : List RGB) (width height : Nat) : LightingMetrics :=
  let brightPixels : Nat := (ps.filter (fun p => decide (120 < luminance p))).length
  let darkPixels : Nat :=
    (ps.filter (fun p => decide (¬ 120 < luminance p) && decide (luminance p < 60))).length
  let totalBrightness : ℚ := (ps.map luminance).sum
  let totalPixels : ℚ := (width * height : ℚ) / 4
  let averageBrightness := totalBrightness / totalPixels
  let variance : ℚ :=
    ((ps.map (fun p => (luminance p - averageBrightness) ^ 2)).sum) / ps.length
  let brightRatio : ℚ := brightPixels / totalPixels
  let darkRatio : ℚ := darkPixels / totalPixels
  { averageBrightness := averageBrightness
    variance := variance
    brightRatio := brightRatio
    darkRatio := darkRatio
    isWellLit :=
      decide (60 < averageBrightness) && decide (averageBrightness < 220)
        && decide (400 < variance) && decide ((1 : ℚ) / 10 < brightRatio)
        && decide (darkRatio < (7 : ℚ) / 10)
    hasContrast := decide (225 < variance) }

/-- The discrete quality buckets. -/
inductive QualityLevel
  | excellent
  | good
  | fair
  | poor
  | veryPoor
deriving Repr, DecidableEq

/-- The assessment record stored in the `lightingQuality` state. -/
structure QualityAssessment where
  level : QualityLevel
  message : JStr
  canCapture : Bool
deriving Repr, DecidableEq

/-- `assessLightingQuality` from `CameraCapture.tsx`: the source's decision
table, with `contrast > 40`, `contrast < 10` compared as `variance > 1600`,
`variance < 100`. -/
def assessLightingQuality (m : LightingMetrics) : QualityAssessment :=
  if m.isWellLit && decide (1600 < m.variance) && decide ((3 : ℚ) / 10 < m.brightRatio) then
    ⟨QualityLevel.excellent, "📷 Perfect Lighting".toList, true⟩
  else if m.isWellLit && m.hasContrast then
    ⟨QualityLevel.good, "📷 Good Lighting".toList, true⟩
  else if m.hasContrast then
    if m.averageBrightness < 50 then
      ⟨QualityLevel.fair, "📷 Slightly Dark - OK".toList, true⟩
    else if 200 < m.averageBrightness then
      ⟨QualityLevel.fair, "📷 Bright Scene - OK".toList, true⟩
    else ⟨QualityLevel.good, "📷 Good Contrast".toList, true⟩
  else if decide (m.averageBrightness < 30) && decide (m.brightRatio < (1 : ℚ) / 20) then
    ⟨QualityLevel.poor, "💡 Need More Light".toList, false⟩
  else if decide (230 < m.averageBrightness) && decide (m.variance < 100) then
    ⟨QualityLevel.poor, "☀️ Too Bright/Washed Out".toList, false⟩
  else if m.variance < 100 then
    ⟨QualityLevel.poor, "📷 Low Contrast Scene".toList, false⟩
  else if m.averageBrightness < 20 then
    ⟨QualityLevel.veryPoor, "🔦 Very Dark - Add Light".toList, false⟩
  else ⟨QualityLevel.fair, "📷 Adequate Lighting".toList, true⟩

/-- The per-tick card-detection decision of `detectLightingAndCard`:
`hasContrast && (forceCapture || (40 < averageBrightness < 250))`. -/
def cardDetected (m : LightingMetrics) (forceCapture : Bool) : Bool :=
  m.hasContrast
    && (forceCapture
        || (decide (40 < m.averageBrightness) && decide (m.averageBrightness < 250)))

/-- The capture-component state read by `captureImage`, as set by one
`detectLightingAndCard` tick from the frame metrics. -/
structure CaptureState where
  isVideoReady : Bool
  isCardDetected : Bool
  forceCapture : Bool
  lightingQuality : QualityAssessment
deriving Repr, DecidableEq

/-- Build the capture state a `detectLightingAndCard` tick leaves behind. -/
def detectTick (m : LightingMetrics) (isVideoReady forceCapture : Bool) : CaptureState :=
  ⟨isVideoReady, cardDetected m forceCapture, forceCapture, assessLightingQuality m⟩

/-- Outcome of the guard section of `captureImage`. -/
inductive CaptureOutcome
  | rejectedNotReady
  | rejectedLighting (msg : JStr)
  | rejectedPosition
  | accepted
deriving Repr, DecidableEq

/-- The guard section of `captureImage` from `CameraCapture.tsx`: require
readiness, then require the card detection or the explicit override; each
rejection shows a toast and returns without capturing. -/
def captureImage (s : CaptureState) : CaptureOutcome :=
  if ¬ s.isVideoReady then CaptureOutcome.rejectedNotReady
  else if ¬ s.isCardDetected && ¬ s.forceCapture then
    if ¬ (s.lightingQuality.canCapture || s.forceCapture) then
      CaptureOutcome.rejectedLighting s.lightingQuality.message
    else CaptureOutcome.rejectedPosition
  else CaptureOutcome.accepted

/-! ## Theorems -/

/-- Stripping non-digits from an all-digit string is the identity. -/
theorem stripNonDigits_eq_self {s : JStr} (h : ∀ a ∈ s, Char.isDigit a) :
    stripNonDigits s = s := List.filter_eq_self.mpr h

/-- C8: the `document upload → video verification` transition is permitted
iff both the front and the back captured image are present, and the
`(frontId, backId)` state reached from two capture callbacks does not
depend on the order of the two sides. -/
theorem documents_transition_gate (frontId backId : Option JSFile) :
    (handleDocumentsSubmit frontId backId FormStep.documents = FormStep.video
      ↔ frontId.isSome = true ∧ backId.isSome = true)
    ∧ (∀ f b : JSFile,
        applyDocEvent (applyDocEvent (none, none) (DocEvent.setFront f)) (DocEvent.setBack b)
          = applyDocEvent (applyDocEvent (none, none) (DocEvent.setBack b)) (DocEvent.setFront f)) := by
  constructor
  · cases frontId <;> cases backId <;> simp [handleDocumentsSubmit]
  · intro f b; rfl

/-- C9: for digit strings of at most 10 (resp. 9) characters, stripping the
non-digit characters from the formatted phone number (resp. SSN) returns
the original digit string: the display formatting never alters the stored
digit sequence. -/
theorem format_display_roundtrip :
    (∀ s : JStr, s.all Char.isDigit = true → s.length ≤ 10 →
        stripNonDigits (formatPhoneNumber s) = s)
    ∧ (∀ s : JStr, s.all Char.isDigit = true → s.length ≤ 9 →
        stripNonDigits (formatSSN s) = s) := by
  have c1 : Char.isDigit '(' = false := rfl
  have c2 : Char.isDigit ')' = false := rfl
  have c3 : Char.isDigit ' ' = false := rfl
  have c4 : Char.isDigit '-' = false := rfl
  constructor
  · intro s hall hlen
    have hd : ∀ a ∈ s, Char.isDigit a := List.all_eq_true.mp hall
    have hnum : stripNonDigits s = s := stripNonDigits_eq_self hd
    have htake : ∀ n : Nat, List.filter Char.isDigit (s.take n) = s.take n :=
      fun n => List.filter_eq_self.mpr (fun a ha => hd a (List.take_subset n s ha))
    have hdrop : ∀ n : Nat, List.filter Char.isDigit (s.drop n) = s.drop n :=
      fun n => List.filter_eq_self.mpr (fun a ha => hd a (List.drop_subset n s ha))
    have hdt : ∀ n m : Nat,
        List.filter Char.isDigit ((s.drop n).take m) = (s.drop n).take m :=
      fun n m => List.filter_eq_self.mpr
        (fun a ha => hd a (List.drop_subset n s (List.take_subset m _ ha)))
    unfold formatPhoneNumber
    rw [hnum]
    dsimp only
    split_ifs with h0 h3 h6
    · simp [stripNonDigits, List.length_eq_zero.mp h0]
    · simpa [stripNonDigits, c1] using hnum
    · simp [stripNonDigits, List.filter_append, c1, c2, c3, htake 3, hdrop 3,
        List.take_append_drop]
    · have h64 : (s.drop 6).take 4 = s.drop 6 :=
        List.take_of_length_le (by simp [List.length_drop]; omega)

      simp [stripNonDigits, List.filter_append, c1, c2, c3, c4, htake 3,
        hdt 3 3, hdt 6 4]
      rw [h64, show s.drop 6 = (s.drop 3).drop 3 from by rw [List.drop_drop],
        List.take_append_drop, List.take_append_drop]
  · intro s hall hlen
    have hd : ∀ a ∈ s, Char.isDigit a := List.all_eq_true.mp hall
    have hnum : stripNonDigits s = s := stripNonDigits_eq_self hd
    have htake : ∀ n : Nat, List.filter Char.isDigit (s.take n) = s.take n :=
      fun n => List.filter_eq_self.mpr (fun a ha => hd a (List.take_subset n s ha))
    have hdrop : ∀ n : Nat, List.filter Char.isDigit (s.drop n) = s.drop n :=
      fun n => List.filter_eq_self.mpr (fun a ha => hd a (List.drop_subset n s ha))
    have hdt : ∀ n m : Nat,
        List.filter Char.isDigit ((s.drop n).take m) = (s.drop n).take m :=
      fun n m => List.filter_eq_self.mpr
        (fun a ha => hd a (List.drop_subset n s (List.take_subset m _ ha)))
    unfold formatSSN
    rw [hnum]
    dsimp only
    split_ifs with h0 h3 h5
    · simp [stripNonDigits, List.length_eq_zero.mp h0]
    · exact hnum
    · simp [stripNonDigits, List.filter_append, c4, htake 3, hdrop 3,
        List.take_append_drop]
    · have h54 : (s.drop 5).take 4 = s.drop 5 :=
        List.take_of_length_le (by simp [List.length_drop]; omega)
      simp [stripNonDigits, List.filter_append, c4, htake 3, hdt 3 2, hdt 5 4]
      rw [h54, show s.drop 5 = (s.drop 3).drop 2 from by rw [List.drop_drop],
        List.take_append_drop, List.take_append_drop]

/-- Witness for C9 at the concrete phone number 5551234567 and SSN
123456789. -/
theorem format_display_roundtrip_witness :
    ("5551234567".toList.all Char.isDigit = true ∧ "5551234567".toList.length ≤ 10 ∧
      stripNonDigits (formatPhoneNumber "5551234567".toList) = "5551234567".toList)
    ∧ ("123456789".toList.all Char.isDigit = true ∧ "123456789".toList.length ≤ 9 ∧
      stripNonDigits (formatSSN "123456789".toList) = "123456789".toList) :=
  ⟨⟨by decide, by decide, format_display_roundtrip.1 _ (by decide) (by decide)⟩,
   ⟨by decide, by decide, format_display_roundtrip.2 _ (by decide) (by decide)⟩⟩

/-- The letters-and-spaces-sanitized full name validated by
`handlePersonalInfoSubmit`. -/
def sanitizedFullName (info : PersonalInfo) : JStr :=
  jsTrim ((info.firstName ++ [' '] ++ info.lastName).filter
    (fun c => c.isAlpha || isJsSpace c))

/-- `validateFullName` passes iff the sanitized name has at least two
characters and contains a space. -/
theorem validateFullName_none_iff (s : JStr) :
    validateFullName s = none
      ↔ 2 ≤ (jsTrim (s.filter (fun c => c.isAlpha || isJsSpace c))).length
        ∧ (jsTrim (s.filter (fun c => c.isAlpha || isJsSpace c))).contains ' ' = true := by
  unfold validateFullName
  dsimp only
  split_ifs with h1 h2 <;> simp_all

/-- `validatePhoneNumber` passes iff the input holds exactly 10 digits. -/
theorem validatePhoneNumber_none_iff (s : JStr) :
    validatePhoneNumber s = none ↔ (stripNonDigits s).length = 10 := by
  unfold validatePhoneNumber
  dsimp only
  split_ifs with h <;> simp_all

/-- `validateSSN` passes iff the input holds exactly 9 digits. -/
theorem validateSSN_none_iff (s : JStr) :
    validateSSN s = none ↔ (stripNonDigits s).length = 9 := by
  unfold validateSSN
  dsimp only
  split_ifs with h <;> simp_all

/-- `validateEmail` passes iff the e-mail matcher accepts. -/
theorem validateEmail_none_iff (s : JStr) :
    validateEmail s = none ↔ emailMatches s = true := by
  unfold validateEmail
  split_ifs with h <;> simp_all

/-- C3: the `personal details → document upload` transition occurs iff the
sanitized full name has ≥ 2 characters and a space, the phone number has
exactly 10 digits, the national ID has exactly 9 digits, and the e-mail
matches the address pattern; each inline-error slot is `none` exactly when
its field passes, and a blocked submission stays on the personal step. -/
theorem personal_details_transition (info : PersonalInfo) :
    (((handlePersonalInfoSubmit info).1.fullName = none
        ↔ 2 ≤ (sanitizedFullName info).length
          ∧ (sanitizedFullName info).contains ' ' = true)
      ∧ ((handlePersonalInfoSubmit info).1.phoneNumber = none
        ↔ (stripNonDigits info.phoneNumber).length = 10)
      ∧ ((handlePersonalInfoSubmit info).1.ssn = none
        ↔ (stripNonDigits info.ssn).length = 9)
      ∧ ((handlePersonalInfoSubmit info).1.email = none
        ↔ emailMatches info.email = true))
    ∧ ((handlePersonalInfoSubmit info).2 = FormStep.documents
      ↔ (2 ≤ (sanitizedFullName info).length
          ∧ (sanitizedFullName info).contains ' ' = true)
        ∧ (stripNonDigits info.phoneNumber).length = 10
        ∧ (stripNonDigits info.ssn).length = 9
        ∧ emailMatches info.email = true)
    ∧ ((handlePersonalInfoSubmit info).2 = FormStep.documents
      ∨ (handlePersonalInfoSubmit info).2 = FormStep.personal) := by
  have hfull := validateFullName_none_iff (info.firstName ++ [' '] ++ info.lastName)
  have hphone := validatePhoneNumber_none_iff info.phoneNumber
  have hssn := validateSSN_none_iff info.ssn
  have hemail := validateEmail_none_iff info.email
  have h1 : (handlePersonalInfoSubmit info).1.fullName
      = validateFullName (info.firstName ++ [' '] ++ info.lastName) := rfl
  have h2 : (handlePersonalInfoSubmit info).1.phoneNumber
      = validatePhoneNumber info.phoneNumber := rfl
  have h3 : (handlePersonalInfoSubmit info).1.ssn = validateSSN info.ssn := rfl
  have h4 : (handlePersonalInfoSubmit info).1.email = validateEmail info.email := rfl
  have hsan : sanitizedFullName info
      = jsTrim ((info.firstName ++ [' '] ++ info.lastName).filter
          (fun c => c.isAlpha || isJsSpace c)) := rfl
  refine ⟨⟨?_, ?_, ?_, ?_⟩, ?_, ?_⟩
  · rw [h1, hsan]; exact hfull
  · rw [h2]; exact hphone
  · rw [h3]; exact hssn
  · rw [h4]; exact hemail
  · have hstep : (handlePersonalInfoSubmit info).2
        = if (validateFullName (info.firstName ++ [' '] ++ info.lastName) = none
            ∧ validatePhoneNumber info.phoneNumber = none
            ∧ validateSSN info.ssn = none ∧ validateEmail info.email = none)
          then FormStep.documents else FormStep.personal := rfl
    rw [hstep, hsan] at *
    split_ifs with hc
    · simp only [true_iff]
      exact ⟨hfull.mp hc.1, hphone.mp hc.2.1, hssn.mp hc.2.2.1, hemail.mp hc.2.2.2⟩
    · constructor
      · intro h; exact absurd h (by simp)
      · intro h
        exact absurd ⟨hfull.mpr h.1, hphone.mpr h.2.1, hssn.mpr h.2.2.1,
          hemail.mpr h.2.2.2⟩ hc
  · have hstep : (handlePersonalInfoSubmit info).2
        = if (validateFullName (info.firstName ++ [' '] ++ info.lastName) = none
            ∧ validatePhoneNumber info.phoneNumber = none
            ∧ validateSSN info.ssn = none ∧ validateEmail info.email = none)
          then FormStep.documents else FormStep.personal := rfl
    rw [hstep]
    split_ifs <;> simp

/-- The concrete applicant of the spec's end-to-end scenario. -/
def janeInfo : PersonalInfo :=
  ⟨"Jane".toList, "Doe".toList, "jane@x.com".toList, "1 Main".toList,
   "Phoenix".toList, "Arizona".toList, "5551234567".toList, "123456789".toList⟩

/-- A submission environment whose stubs all succeed. -/
def okEnv : SubmissionEnv := ⟨fun _ => none, some [], none⟩

/-- A concrete folder key. -/
def demoFolder : JStr := "application_1_abc123".toList

/-- C1: if the five uploads succeed the coordinator requests signed URLs for
exactly the five uploaded paths with a 3600-second validity, and — with the
signed-URL call returning data, as the spec requires it to — the whole trace
is the five uploads followed by that request followed by exactly one insert
whose row carries status `pending`; if any upload fails, no insert ever
appears in the trace. -/
theorem submission_coordinator_order (env : SubmissionEnv) (info : PersonalInfo)
    (folderName : JStr) (step : FormStep) :
    ((submissionPaths folderName).all (fun p => (env.uploadError p).isNone) = true →
      (∀ d, env.urlData = some d →
        (handleSubmission env info folderName step).trace
          = (submissionPaths folderName).map SubEvent.upload
            ++ [SubEvent.createSignedUrls (submissionPaths folderName) 3600,
                SubEvent.insert (insertRow info)])
      ∧ SubEvent.createSignedUrls (submissionPaths folderName) 3600
          ∈ (handleSubmission env info folderName step).trace
      ∧ ("status".toList, "pending".toList) ∈ insertRow info)
    ∧ ((submissionPaths folderName).all (fun p => (env.uploadError p).isNone) = false →
      ∀ row, SubEvent.insert row ∉ (handleSubmission env info folderName step).trace) := by
  constructor
  · intro hup
    refine ⟨?_, ?_, by simp [insertRow]⟩
    · intro d hd
      cases hins : env.insertError <;>
        simp [handleSubmission, hup, hd, hins]
    · cases hurl : env.urlData with
      | none => simp [handleSubmission, hup, hurl]
      | some d => cases hins : env.insertError <;>
          simp [handleSubmission, hup, hurl, hins]
  · intro hup row
    simp [handleSubmission, hup]

/-- Witness for C1 on all-succeeding stubs, and on stubs whose first upload
fails. -/
theorem submission_coordinator_order_witness :
    ((submissionPaths demoFolder).all (fun p => (okEnv.uploadError p).isNone) = true
      ∧ (handleSubmission okEnv janeInfo demoFolder FormStep.video).trace
          = (submissionPaths demoFolder).map SubEvent.upload
            ++ [SubEvent.createSignedUrls (submissionPaths demoFolder) 3600,
                SubEvent.insert (insertRow janeInfo)])
    ∧ ((submissionPaths demoFolder).all
          (fun p => ((SubmissionEnv.mk (fun _ => some ⟨"storage failure".toList⟩)
            (some []) none).uploadError p).isNone) = false
      ∧ SubEvent.insert (insertRow janeInfo)
          ∉ (handleSubmission
              (SubmissionEnv.mk (fun _ => some ⟨"storage failure".toList⟩) (some []) none)
              janeInfo demoFolder FormStep.video).trace) :=
  ⟨⟨by decide,
    ((submission_coordinator_order okEnv janeInfo demoFolder FormStep.video).1
      (by decide)).1 [] rfl⟩,
   ⟨by decide,
    (submission_coordinator_order
      (SubmissionEnv.mk (fun _ => some ⟨"storage failure".toList⟩) (some []) none)
      janeInfo demoFolder FormStep.video).2 (by decide) (insertRow janeInfo)⟩⟩

/-- C2 counterexample: on a fully successful run the coordinator performs
exactly one insert, and its row — `insertRow janeInfo` — carries no `email`
column and no `ssn` (national ID) column at all, although the applicant
profile holds nonempty values for both; the claim that the inserted row
holds the e-mail and national-ID fields is false. -/
theorem applicationRecord_counterexample :
    (handleSubmission okEnv janeInfo demoFolder FormStep.video).trace.filterMap getInsertRow
        = [insertRow janeInfo]
    ∧ (insertRow janeInfo).lookup "email".toList = none
    ∧ (insertRow janeInfo).lookup "ssn".toList = none
    ∧ janeInfo.email ≠ [] ∧ janeInfo.ssn ≠ [] := by
  refine ⟨by decide, by decide, by decide, by decide, by decide⟩

/-- C2 amended: the single row inserted on successful submission holds
exactly first name, last name, address, city, state and phone number of the
profile plus status `pending`; the e-mail and the national ID are not part
of the row. -/
theorem applicationRecord_row (env : SubmissionEnv) (info : PersonalInfo)
    (folderName : JStr) (step : FormStep)
    (hup : (submissionPaths folderName).all (fun p => (env.uploadError p).isNone) = true)
    (d : List JStr) (hurl : env.urlData = some d) :
    (handleSubmission env info folderName step).trace.filterMap getInsertRow
      = [[("first_name".toList, info.firstName),
          ("last_name".toList, info.lastName),
          ("address".toList, info.address),
          ("city".toList, info.city),
          ("state".toList, info.state),
          ("phone_number".toList, info.phoneNumber),
          ("status".toList, "pending".toList)]] := by
  cases hins : env.insertError <;>
    simp [handleSubmission, hup, hurl, hins, getInsertRow, insertRow]

/-- Witness for the amended C2 on the concrete all-succeeding run. -/
theorem applicationRecord_row_witness :
    (handleSubmission okEnv janeInfo demoFolder FormStep.video).trace.filterMap getInsertRow
      = [[("first_name".toList, janeInfo.firstName),
          ("last_name".toList, janeInfo.lastName),
          ("address".toList, janeInfo.address),
          ("city".toList, janeInfo.city),
          ("state".toList, janeInfo.state),
          ("phone_number".toList, janeInfo.phoneNumber),
          ("status".toList, "pending".toList)]] :=
  applicationRecord_row okEnv janeInfo demoFolder FormStep.video (by decide) [] rfl

/-- A `VideoVerification` run reports completion at most once (the parent
unmounts the component at the first `onComplete`). -/
theorem vvRun_length_le_one (evts : List VVEvent) :
    ∀ s, (vvRun s evts).length ≤ 1 := by
  induction evts with
  | nil => intro s; simp [vvRun]
  | cons e rest ih =>
    intro s
    rcases h : vvStep s e with ⟨s2, out⟩
    cases out with
    | some p => simp [vvRun, h]
    | none => simpa [vvRun, h] using ih s2

/-- From a post-first-recording state (`error` or `retry` sub-state), a run
with no further completed recording reports nothing. -/
theorem vvRun_armed_no_success (evts : List VVEvent) :
    ∀ s : VVState, (s.currentStep = VerificationStep.error
        ∨ s.currentStep = VerificationStep.retry) →
      countSuccessStops evts = 0 → vvRun s evts = [] := by
  induction evts with
  | nil => intro s _ _; simp [vvRun]
  | cons e rest ih =>
    intro s hs hc
    cases e with
    | stopWith chunks =>
      have hsz : ¬ 0 < (assembleBlob chunks).size := by
        intro hpos
        simp [countSuccessStops, hpos] at hc
      have hrest : countSuccessStops rest = 0 := by
        simp [countSuccessStops, hsz] at hc
        simpa [hsz] using hc
      have hstep : vvStep s (VVEvent.stopWith chunks) = (s, none) := by
        simp [vvStep, onRecorderStop, hsz]
      simp only [vvRun, hstep]
      exact ih s hs hrest
    | restart =>
      have hrest : countSuccessStops rest = 0 := by simpa [countSuccessStops] using hc
      rcases hs with hs | hs
      · have hstep : vvStep s VVEvent.restart
            = (⟨VerificationStep.retry, s.firstVideo⟩, none) := by
          simp [vvStep, hs]
        simp only [vvRun, hstep]
        exact ih _ (Or.inr rfl) hrest
      · have hstep : vvStep s VVEvent.restart = (s, none) := by
          simp [vvStep, hs]
        simp only [vvRun, hstep]
        exact ih s (Or.inr hs) hrest

/-- From a post-first-recording state holding first blob `b`, every
reported completion carries `b` as its first component, and `b` keeps its
size bound. -/
theorem vvRun_armed_first (evts : List VVEvent) :
    ∀ (s : VVState) (b : VVBlob), (s.currentStep = VerificationStep.error
        ∨ s.currentStep = VerificationStep.retry) →
      s.firstVideo = some b →
      ∀ p ∈ vvRun s evts, p.1 = b ∧ 0 < p.2.size := by
  induction evts with
  | nil => intro s b _ _ p hp; simp [vvRun] at hp
  | cons e rest ih =>
    intro s b hs hb p hp
    cases e with
    | stopWith chunks =>
      by_cases hsz : 0 < (assembleBlob chunks).size
      · rcases hs with hs | hs
        · have hstep : vvStep s (VVEvent.stopWith chunks) = (s, none) := by
            simp [vvStep, onRecorderStop, hsz, handleRecordingComplete, hs]
          rw [vvRun, hstep] at hp
          exact ih s b (Or.inl hs) hb p hp
        · have hstep : vvStep s (VVEvent.stopWith chunks)
              = (s, some (b, assembleBlob chunks)) := by
            simp [vvStep, onRecorderStop, hsz, handleRecordingComplete, hs, hb]
          rw [vvRun, hstep] at hp
          simp at hp
          subst hp
          exact ⟨rfl, hsz⟩
      · have hstep : vvStep s (VVEvent.stopWith chunks) = (s, none) := by
          simp [vvStep, onRecorderStop, hsz]
        rw [vvRun, hstep] at hp
        exact ih s b hs hb p hp
    | restart =>
      rcases hs with hs | hs
      · have hstep : vvStep s VVEvent.restart
            = (⟨VerificationStep.retry, s.firstVideo⟩, none) := by
          simp [vvStep, hs]
        rw [vvRun, hstep] at hp
        exact ih _ b (Or.inr rfl) (by simpa using hb) p hp
      · have hstep : vvStep s VVEvent.restart = (s, none) := by
          simp [vvStep, hs]
        rw [vvRun, hstep] at hp
        exact ih s b (Or.inr hs) hb p hp

/-- From the freshly mounted state, every reported completion carries the
first completed recording's blob as `video1` and a nonempty later blob as
`video2`, and nothing is reported before two recordings complete. -/
theorem vvRun_init_first (evts : List VVEvent) :
    ∀ p ∈ vvRun vvInit evts,
      (∃ b, firstSuccessBlob evts = some b ∧ p.1 = b ∧ 0 < p.1.size)
        ∧ 0 < p.2.size := by
  have main : ∀ (l : List VVEvent) (s : VVState),
      s.currentStep = VerificationStep.initial → s.firstVideo = none →
      ∀ p ∈ vvRun s l,
        (∃ b, firstSuccessBlob l = some b ∧ p.1 = b ∧ 0 < p.1.size) ∧ 0 < p.2.size := by
    intro l
    induction l with
    | nil => intro s _ _ p hp; simp [vvRun] at hp
    | cons e rest ih =>
      intro s hs hb p hp
      cases e with
      | stopWith chunks =>
        by_cases hsz : 0 < (assembleBlob chunks).size
        · have hstep : vvStep s (VVEvent.stopWith chunks)
              = (⟨VerificationStep.error, some (assembleBlob chunks)⟩, none) := by
            simp [vvStep, onRecorderStop, hsz, handleRecordingComplete, hs]
          rw [vvRun, hstep] at hp
          have harm := vvRun_armed_first rest
            ⟨VerificationStep.error, some (assembleBlob chunks)⟩
            (assembleBlob chunks) (Or.inl rfl) rfl p hp
          exact ⟨⟨assembleBlob chunks, by simp [firstSuccessBlob, hsz], harm.1,
            harm.1 ▸ hsz⟩, harm.2⟩
        · have hstep : vvStep s (VVEvent.stopWith chunks) = (s, none) := by
            simp [vvStep, onRecorderStop, hsz]
          rw [vvRun, hstep] at hp
          have h := ih s hs hb p hp
          refine ⟨?_, h.2⟩
          rcases h.1 with ⟨b, hb1, hb2, hb3⟩
          exact ⟨b, by simp [firstSuccessBlob, hsz, hb1], hb2, hb3⟩
      | restart =>
        have hstep : vvStep s VVEvent.restart = (s, none) := by
          simp [vvStep, hs]
        rw [vvRun, hstep] at hp
        have h := ih s hs hb p hp
        refine ⟨?_, h.2⟩
        rcases h.1 with ⟨b, hb1, hb2, hb3⟩
        exact ⟨b, by simpa [firstSuccessBlob] using hb1, hb2, hb3⟩
  exact main evts vvInit rfl rfl

/-- C4: driven through its intended script the component reports exactly
once, with the first recording's blob as `video1` and the second's as
`video2`; in general a run reports at most once, reports nothing until two
recordings have completed, and any report's `video1` is the first completed
recording's blob. -/
theorem video_pair_completion :
    (∀ c1 c2 : List VVBlob, 0 < (assembleBlob c1).size → 0 < (assembleBlob c2).size →
      vvRun vvInit [VVEvent.stopWith c1, VVEvent.restart, VVEvent.stopWith c2]
        = [(assembleBlob c1, assembleBlob c2)])
    ∧ (∀ evts s, (vvRun s evts).length ≤ 1)
    ∧ (∀ evts, countSuccessStops evts < 2 → vvRun vvInit evts = [])
    ∧ (∀ evts p, p ∈ vvRun vvInit evts →
        ∃ b, firstSuccessBlob evts = some b ∧ p.1 = b) := by
  refine ⟨?_, fun evts s => vvRun_length_le_one evts s, ?_, ?_⟩
  · intro c1 c2 h1 h2
    simp [vvRun, vvStep, onRecorderStop, h1, h2, handleRecordingComplete, vvInit]
  · intro evts hc
    cases h : countSuccessStops evts with
    | zero =>
      have main : ∀ (l : List VVEvent) (s : VVState),
          s.currentStep = VerificationStep.initial →
          countSuccessStops l = 0 → vvRun s l = [] := by
        intro l
        induction l with
        | nil => intro s _ _; simp [vvRun]
        | cons e rest ihz =>
          intro s hs hz
          cases e with
          | stopWith chunks =>
            have hsz : ¬ 0 < (assembleBlob chunks).size := by
              intro hpos; simp [countSuccessStops, hpos] at hz
            have hrest : countSuccessStops rest = 0 := by
              simpa [countSuccessStops, hsz] using hz
            have hstep : vvStep s (VVEvent.stopWith chunks) = (s, none) := by
              simp [vvStep, onRecorderStop, hsz]
            rw [vvRun, hstep]
            exact ihz s hs hrest
          | restart =>
            have hrest : countSuccessStops rest = 0 := by
              simpa [countSuccessStops] using hz
            have hstep : vvStep s VVEvent.restart = (s, none) := by
              simp [vvStep, hs]
            rw [vvRun, hstep]
            exact ihz s hs hrest
      exact main evts vvInit rfl h
    | succ n =>
      have hn : n = 0 := by omega
      subst hn
      -- exactly one completed recording: the run arms but never reports
      have main : ∀ (l : List VVEvent) (s : VVState),
          s.currentStep = VerificationStep.initial →
          countSuccessStops l = 1 → vvRun s l = [] := by
        intro l
        induction l with
        | nil => intro s _ h1; simp [countSuccessStops] at h1
        | cons e rest iho =>
          intro s hs h1
          cases e with
          | stopWith chunks =>
            by_cases hsz : 0 < (assembleBlob chunks).size
            · have hrest : countSuccessStops rest = 0 := by
                simp [countSuccessStops, hsz] at h1
                omega
              have hstep : vvStep s (VVEvent.stopWith chunks)
                  = (⟨VerificationStep.error, some (assembleBlob chunks)⟩, none) := by
                simp [vvStep, onRecorderStop, hsz, handleRecordingComplete, hs]
              rw [vvRun, hstep]
              exact vvRun_armed_no_success rest _ (Or.inl rfl) hrest
            · have hrest : countSuccessStops rest = 1 := by
                simpa [countSuccessStops, hsz] using h1
              have hstep : vvStep s (VVEvent.stopWith chunks) = (s, none) := by
                simp [vvStep, onRecorderStop, hsz]
              rw [vvRun, hstep]
              exact iho s hs hrest
          | restart =>
            have hrest : countSuccessStops rest = 1 := by
              simpa [countSuccessStops] using h1
            have hstep : vvStep s VVEvent.restart = (s, none) := by
              simp [vvStep, hs]
            rw [vvRun, hstep]
            exact iho s hs hrest
      exact main evts vvInit rfl h
  · intro evts p hp
    rcases (vvRun_init_first evts p hp).1 with ⟨b, h1, h2, _⟩
    exact ⟨b, h1, h2⟩

/-- Witness for C4: a concrete two-recording script. -/
theorem video_pair_completion_witness :
    (0 < (assembleBlob [VVBlob.mk [1]]).size ∧ 0 < (assembleBlob [VVBlob.mk [2]]).size
      ∧ vvRun vvInit [VVEvent.stopWith [VVBlob.mk [1]], VVEvent.restart,
          VVEvent.stopWith [VVBlob.mk [2]]]
        = [(assembleBlob [VVBlob.mk [1]], assembleBlob [VVBlob.mk [2]])])
    ∧ (countSuccessStops [VVEvent.stopWith [VVBlob.mk [1]]] < 2
      ∧ vvRun vvInit [VVEvent.stopWith [VVBlob.mk [1]]] = []) :=
  ⟨⟨by decide, by decide,
    video_pair_completion.1 [VVBlob.mk [1]] [VVBlob.mk [2]] (by decide) (by decide)⟩,
   ⟨by decide, video_pair_completion.2.2.1 [VVEvent.stopWith [VVBlob.mk [1]]] (by decide)⟩⟩

/-- C10: a recorder stop assembling a zero-size blob only raises the
transient error toast and leaves the component state, sub-state and
callback untouched; consequently every reported completion carries two
nonempty blobs. -/
theorem empty_recording_guard :
    (∀ (s : VVState) (chunks : List VVBlob), (assembleBlob chunks).size = 0 →
      onRecorderStop s chunks = (s, none, true))
    ∧ (∀ (evts : List VVEvent) (p : VVBlob × VVBlob), p ∈ vvRun vvInit evts →
      0 < p.1.size ∧ 0 < p.2.size) := by
  constructor
  · intro s chunks h
    simp [onRecorderStop, h]
  · intro evts p hp
    have h := vvRun_init_first evts p hp
    rcases h.1 with ⟨b, _, _, hb⟩
    exact ⟨hb, h.2⟩

/-- Witness for C10: an empty chunk list is rejected with only the toast,
and the concrete two-recording run reports nonempty blobs. -/
theorem empty_recording_guard_witness :
    ((assembleBlob ([] : List VVBlob)).size = 0
      ∧ onRecorderStop vvInit [] = (vvInit, none, true))
    ∧ ((VVBlob.mk [5], VVBlob.mk [7])
        ∈ vvRun vvInit [VVEvent.stopWith [VVBlob.mk [5]], VVEvent.restart,
            VVEvent.stopWith [VVBlob.mk [7]]]
      ∧ 0 < (VVBlob.mk [5]).size ∧ 0 < (VVBlob.mk [7]).size) :=
  ⟨⟨by decide, empty_recording_guard.1 vvInit [] (by decide)⟩,
   ⟨by decide,
    empty_recording_guard.2 [VVEvent.stopWith [VVBlob.mk [5]], VVEvent.restart,
      VVEvent.stopWith [VVBlob.mk [7]]] (VVBlob.mk [5], VVBlob.mk [7]) (by decide)⟩⟩

/-- C5: starting fresh (no previously bound stream), if the acquisition
function rejects the first two constraint sets and accepts the third, the
strategy ends stream-bound and ready on exactly the third set, having tried
the sets strictly in order 0,1,2, and having released no stream; if every
constraint set is rejected, the error of the final rejection is the one
surfaced. -/
theorem camera_acquisition_fallback :
    (∀ (attempt : Nat → Except CamErr NativeStream) (isFrontCamera : Bool)
        (e0 e1 : CamErr) (s2 : NativeStream),
      attempt 0 = Except.error e0 → attempt 1 = Except.error e1 →
      attempt 2 = Except.ok s2 → 0 < s2.videoTracks →
      (initializeNativeCamera attempt isFrontCamera ⟨none, false, true, none⟩).1
          = ⟨some s2, true, false, none⟩
        ∧ (initializeNativeCamera attempt isFrontCamera ⟨none, false, true, none⟩).2
          = [CamEvent.tryConstraints 0, CamEvent.tryConstraints 1,
             CamEvent.tryConstraints 2]
        ∧ ∀ sid, CamEvent.releaseStream sid
            ∉ (initializeNativeCamera attempt isFrontCamera ⟨none, false, true, none⟩).2)
    ∧ (∀ (attempt : Nat → Except CamErr NativeStream) (isFrontCamera : Bool)
        (e0 e1 e2 e3 : CamErr),
      attempt 0 = Except.error e0 → attempt 1 = Except.error e1 →
      attempt 2 = Except.error e2 → attempt 3 = Except.error e3 →
      (initializeNativeCamera attempt isFrontCamera ⟨none, false, true, none⟩).1
        = ⟨none, false, false, some (camErrorMessage e3)⟩) := by
  constructor
  · intro attempt isFrontCamera e0 e1 s2 h0 h1 h2 htr
    have hr : List.range (getConstraintSets isFrontCamera).length = [0, 1, 2, 3] := rfl
    refine ⟨?_, ?_, ?_⟩ <;>
      simp [initializeNativeCamera, hr, camLoop, h0, h1, h2, htr]
  · intro attempt isFrontCamera e0 e1 e2 e3 h0 h1 h2 h3
    have hr : List.range (getConstraintSets isFrontCamera).length = [0, 1, 2, 3] := rfl
    simp [initializeNativeCamera, hr, camLoop, h0, h1, h2, h3]

/-- Witness for C5: a concrete acquisition stub rejecting the first two
sets and accepting the third, and one rejecting all four. -/
theorem camera_acquisition_fallback_witness :
    ((fun i => if i < 2 then Except.error ⟨CamErrName.other⟩
        else Except.ok (NativeStream.mk 7 1) : Nat → Except CamErr NativeStream) 0
        = Except.error ⟨CamErrName.other⟩
      ∧ (initializeNativeCamera
          (fun i => if i < 2 then Except.error ⟨CamErrName.other⟩
            else Except.ok (NativeStream.mk 7 1)) true ⟨none, false, true, none⟩).1
        = ⟨some (NativeStream.mk 7 1), true, false, none⟩)
    ∧ (initializeNativeCamera
        (fun _ => Except.error ⟨CamErrName.notAllowed⟩) true
        ⟨none, false, true, none⟩).1
      = ⟨none, false, false, some (camErrorMessage ⟨CamErrName.notAllowed⟩)⟩ :=
  ⟨⟨rfl,
    ((camera_acquisition_fallback.1
      (fun i => if i < 2 then Except.error ⟨CamErrName.other⟩
        else Except.ok (NativeStream.mk 7 1)) true
      ⟨CamErrName.other⟩ ⟨CamErrName.other⟩ (NativeStream.mk 7 1)
      rfl rfl rfl (by decide))).1⟩,
   camera_acquisition_fallback.2
    (fun _ => Except.error ⟨CamErrName.notAllowed⟩) true
    ⟨CamErrName.notAllowed⟩ ⟨CamErrName.notAllowed⟩ ⟨CamErrName.notAllowed⟩
    ⟨CamErrName.notAllowed⟩ rfl rfl rfl rfl⟩

/-- Field view of `analyzeLightingQuality`: the mean luma. -/
theorem analyze_avg (ps : List RGB) (w h : Nat) :
    (analyzeLightingQuality ps w h).averageBrightness
      = (ps.map luminance).sum / ((w * h : ℚ) / 4) := rfl

/-- Field view of `analyzeLightingQuality`: the luma variance. -/
theorem analyze_variance (ps : List RGB) (w h : Nat) :
    (analyzeLightingQuality ps w h).variance
      = (ps.map (fun p =>
          (luminance p - (ps.map luminance).sum / ((w * h : ℚ) / 4)) ^ 2)).sum
        / (ps.length : ℚ) := rfl

/-- Field view of `analyzeLightingQuality`: the bright-pixel ratio. -/
theorem analyze_brightRatio (ps : List RGB) (w h : Nat) :
    (analyzeLightingQuality ps w h).brightRatio
      = ((ps.filter (fun p => decide (120 < luminance p))).length : ℚ)
        / ((w * h : ℚ) / 4) := rfl

/-- Field view of `analyzeLightingQuality`: the dark-pixel ratio. -/
theorem analyze_darkRatio (ps : List RGB) (w h : Nat) :
    (analyzeLightingQuality ps w h).darkRatio
      = ((ps.filter (fun p =>
            decide (¬ 120 < luminance p) && decide (luminance p < 60))).length : ℚ)
        / ((w * h : ℚ) / 4) := rfl

/-- Field view of `analyzeLightingQuality`: the well-lit flag. -/
theorem analyze_isWellLit (ps : List RGB) (w h : Nat) :
    (analyzeLightingQuality ps w h).isWellLit
      = (decide (60 < (analyzeLightingQuality ps w h).averageBrightness)
        && decide ((analyzeLightingQuality ps w h).averageBrightness < 220)
        && decide (400 < (analyzeLightingQuality ps w h).variance)
        && decide ((1 : ℚ) / 10 < (analyzeLightingQuality ps w h).brightRatio)
        && decide ((analyzeLightingQuality ps w h).darkRatio < (7 : ℚ) / 10)) := rfl

/-- Field view of `analyzeLightingQuality`: the contrast flag. -/
theorem analyze_hasContrast (ps : List RGB) (w h : Nat) :
    (analyzeLightingQuality ps w h).hasContrast
      = decide (225 < (analyzeLightingQuality ps w h).variance) := rfl

/-- Two pointwise-exclusive filters never select more than the whole list. -/
theorem length_filter_two_le {α : Type} (l : List α) (p q : α → Bool)
    (hpq : ∀ x, p x = true → q x = false) :
    (l.filter p).length + (l.filter q).length ≤ l.length := by
  induction l with
  | nil => simp
  | cons a t ih =>
    by_cases hp : p a = true
    · have hq := hpq a hp
      simp only [List.filter_cons, hp, hq, if_true, Bool.false_eq_true, if_false,
        List.length_cons]
      omega
    · by_cases hq : q a = true <;>
        simp only [List.filter_cons, hp, hq, Bool.false_eq_true, if_false, if_true,
          List.length_cons] <;> omega

/-- C6: a frame whose every sampled pixel has luma 0 classifies as poor or
very-poor with the capture flag off; a frame with mean luma near 128 (within
[100, 156]) whose contrast exceeds 40 (variance > 1600) and whose bright
ratio exceeds 0.3 classifies as good or excellent with the capture flag on;
a frame with mean luma 255 and near-zero variance (contrast < 10) classifies
as poor with the capture flag off. -/
theorem lighting_classification :
    (∀ (ps : List RGB) (w h : Nat),
      (∀ p ∈ ps, luminance p = 0) →
      ((assessLightingQuality (analyzeLightingQuality ps w h)).level = QualityLevel.poor
        ∨ (assessLightingQuality (analyzeLightingQuality ps w h)).level
            = QualityLevel.veryPoor)
      ∧ (assessLightingQuality (analyzeLightingQuality ps w h)).canCapture = false)
    ∧ (∀ (ps : List RGB) (w h : Nat),
      0 < ps.length → ((w * h : ℚ) / 4 = (ps.length : ℚ)) →
      100 ≤ (analyzeLightingQuality ps w h).averageBrightness →
      (analyzeLightingQuality ps w h).averageBrightness ≤ 156 →
      1600 < (analyzeLightingQuality ps w h).variance →
      (3 : ℚ) / 10 < (analyzeLightingQuality ps w h).brightRatio →
      ((assessLightingQuality (analyzeLightingQuality ps w h)).level
            = QualityLevel.excellent
        ∨ (assessLightingQuality (analyzeLightingQuality ps w h)).level
            = QualityLevel.good)
      ∧ (assessLightingQuality (analyzeLightingQuality ps w h)).canCapture = true)
    ∧ (∀ (ps : List RGB) (w h : Nat),
      (analyzeLightingQuality ps w h).averageBrightness = 255 →
      (analyzeLightingQuality ps w h).variance < 100 →
      (assessLightingQuality (analyzeLightingQuality ps w h)).level = QualityLevel.poor
      ∧ (assessLightingQuality (analyzeLightingQuality ps w h)).canCapture = false) := by
  refine ⟨?_, ?_, ?_⟩
  · intro ps w h hlum
    have hsum : (ps.map luminance).sum = 0 := by
      apply List.sum_eq_zero
      intro x hx
      rcases List.mem_map.mp hx with ⟨p, hp, rfl⟩
      exact hlum p hp
    have havg : (analyzeLightingQuality ps w h).averageBrightness = 0 := by
      rw [analyze_avg, hsum, zero_div]
    have hvar : (analyzeLightingQuality ps w h).variance = 0 := by
      rw [analyze_variance]
      have hmap : ps.map (fun p =>
            (luminance p - (ps.map luminance).sum / ((w * h : ℚ) / 4)) ^ 2)
          = ps.map (fun _ => (0 : ℚ)) := by
        apply List.map_congr_left
        intro p hp
        rw [hlum p hp, hsum, zero_div, sub_zero]
        norm_num
      rw [hmap]
      simp
    have hbr : (analyzeLightingQuality ps w h).brightRatio = 0 := by
      rw [analyze_brightRatio]
      have hfil : ps.filter (fun p => decide (120 < luminance p)) = [] := by
        apply List.filter_eq_nil_iff.mpr
        intro p hp
        rw [hlum p hp]
        norm_num
      rw [hfil]
      simp
    have hwl : (analyzeLightingQuality ps w h).isWellLit = false := by
      rw [analyze_isWellLit]
      have h60 : decide (60 < (analyzeLightingQuality ps w h).averageBrightness)
          = false := by rw [havg]; norm_num
      rw [h60]
      simp
    have hhc : (analyzeLightingQuality ps w h).hasContrast = false := by
      rw [analyze_hasContrast, hvar]
      norm_num
    have hassess : assessLightingQuality (analyzeLightingQuality ps w h)
        = ⟨QualityLevel.poor, "💡 Need More Light".toList, false⟩ := by
      unfold assessLightingQuality
      rw [hwl, hhc, havg, hbr]
      norm_num
    rw [hassess]
    exact ⟨Or.inl rfl, rfl⟩
  · intro ps w h hn htp h100 h156 hvar hbr
    have hn0 : (0 : ℚ) < ((w * h : ℚ) / 4) := by
      rw [htp]
      exact_mod_cast hn
    have hdr : (analyzeLightingQuality ps w h).darkRatio < (7 : ℚ) / 10 := by
      rw [analyze_darkRatio]
      rw [analyze_brightRatio] at hbr
      have hcount := length_filter_two_le ps
        (fun p => decide (120 < luminance p))
        (fun p => decide (¬ 120 < luminance p) && decide (luminance p < 60))
        (by
          intro x hx
          simp only [decide_eq_true_eq] at hx
          simp [hx])
      have hcast : ((ps.filter (fun p => decide (120 < luminance p))).length : ℚ)
            + ((ps.filter (fun p =>
                decide (¬ 120 < luminance p) && decide (luminance p < 60))).length : ℚ)
          ≤ (ps.length : ℚ) := by exact_mod_cast hcount
      set n : ℚ := (w * h : ℚ) / 4 with hndef
      set bq : ℚ :=
        ((ps.filter (fun p => decide (120 < luminance p))).length : ℚ) with hbq
      set dq : ℚ := ((ps.filter (fun p =>
          decide (¬ 120 < luminance p) && decide (luminance p < 60))).length : ℚ)
        with hdq
      have hsum : bq + dq ≤ n := by rw [htp]; exact hcast
      have hstep : dq / n ≤ (n - bq) / n :=
        div_le_div_of_nonneg_right (by linarith) hn0.le
      have hone : (n - bq) / n = 1 - bq / n := by
        field_simp
      rw [hone] at hstep
      linarith
    have hwl : (analyzeLightingQuality ps w h).isWellLit = true := by
      rw [analyze_isWellLit]
      simp only [Bool.and_eq_true, decide_eq_true_eq]
      refine ⟨⟨⟨⟨by linarith, by linarith⟩, by linarith⟩, by linarith⟩, hdr⟩
    have hassess : assessLightingQuality (analyzeLightingQuality ps w h)
        = ⟨QualityLevel.excellent, "📷 Perfect Lighting".toList, true⟩ := by
      unfold assessLightingQuality
      rw [hwl]
      have h1600 : decide (1600 < (analyzeLightingQuality ps w h).variance) = true :=
        decide_eq_true hvar
      have h310 : decide ((3 : ℚ) / 10 < (analyzeLightingQuality ps w h).brightRatio)
          = true := decide_eq_true hbr
      rw [h1600, h310]
      simp
    rw [hassess]
    exact ⟨Or.inl rfl, rfl⟩
  · intro ps w h havg hvar
    have hwl : (analyzeLightingQuality ps w h).isWellLit = false := by
      rw [analyze_isWellLit]
      have h220 : decide ((analyzeLightingQuality ps w h).averageBrightness < 220)
          = false := by rw [havg]; norm_num
      rw [h220]
      simp
    have hhc : (analyzeLightingQuality ps w h).hasContrast = false := by
      rw [analyze_hasContrast]
      apply decide_eq_false
      linarith
    have hassess : assessLightingQuality (analyzeLightingQuality ps w h)
        = ⟨QualityLevel.poor, "☀️ Too Bright/Washed Out".toList, false⟩ := by
      unfold assessLightingQuality
      rw [hwl, hhc, havg]
      have hv : decide ((analyzeLightingQuality ps w h).variance < 100) = true :=
        decide_eq_true hvar
      rw [hv]
      norm_num
    rw [hassess]
    exact ⟨rfl, rfl⟩

/-- A synthetic high-contrast frame: half white, half black pixels. -/
def demoFrame : List RGB :=
  [RGB.mk 255 255 255, RGB.mk 255 255 255, RGB.mk 0 0 0, RGB.mk 0 0 0]

/-- Witness for C6 at three concrete synthetic frames: an all-black sampled
frame on a 2×2 canvas, the half-white/half-black `demoFrame` on a 4×4
canvas, and an all-white single-pixel sample on a 2×2 canvas. -/
theorem lighting_classification_witness :
    (luminance (RGB.mk 0 0 0) = 0
      ∧ (assessLightingQuality
          (analyzeLightingQuality [RGB.mk 0 0 0] 2 2)).canCapture = false)
    ∧ (((4 * 4 : ℚ) / 4 = (demoFrame.length : ℚ))
      ∧ 100 ≤ (analyzeLightingQuality demoFrame 4 4).averageBrightness
      ∧ 1600 < (analyzeLightingQuality demoFrame 4 4).variance
      ∧ (3 : ℚ) / 10 < (analyzeLightingQuality demoFrame 4 4).brightRatio
      ∧ (assessLightingQuality (analyzeLightingQuality demoFrame 4 4)).canCapture = true)
    ∧ ((analyzeLightingQuality [RGB.mk 255 255 255] 2 2).averageBrightness = 255
      ∧ (analyzeLightingQuality [RGB.mk 255 255 255] 2 2).variance < 100
      ∧ (assessLightingQuality
          (analyzeLightingQuality [RGB.mk 255 255 255] 2 2)).level
        = QualityLevel.poor) :=
  ⟨⟨by norm_num [luminance],
    (lighting_classification.1 [RGB.mk 0 0 0] 2 2
      (by intro p hp; simp at hp; rw [hp]; norm_num [luminance])).2⟩,
   ⟨by norm_num [demoFrame],
    by rw [analyze_avg]; norm_num [demoFrame, luminance],
    by rw [analyze_variance]; norm_num [demoFrame, luminance],
    by rw [analyze_brightRatio]; norm_num [demoFrame, luminance, List.filter],
    (lighting_classification.2.1 demoFrame 4 4 (by norm_num [demoFrame])
      (by norm_num [demoFrame])
      (by rw [analyze_avg]; norm_num [demoFrame, luminance])
      (by rw [analyze_avg]; norm_num [demoFrame, luminance])
      (by rw [analyze_variance]; norm_num [demoFrame, luminance])
      (by rw [analyze_brightRatio]; norm_num [demoFrame, luminance, List.filter])).2⟩,
   ⟨by rw [analyze_avg]; norm_num [luminance],
    by rw [analyze_variance]; norm_num [luminance],
    (lighting_classification.2.2 [RGB.mk 255 255 255] 2 2
      (by rw [analyze_avg]; norm_num [luminance])
      (by rw [analyze_variance]; norm_num [luminance])).1⟩⟩

/-- Whenever the frame has the minimum contrast for detail
(`hasContrast`), every branch of the assessment decision table that can
fire yields `canCapture = true`. -/
theorem assess_canCapture_of_hasContrast (m : LightingMetrics)
    (h : m.hasContrast = true) :
    (assessLightingQuality m).canCapture = true := by
  unfold assessLightingQuality
  split_ifs <;> simp_all

/-- C7: the capture action is accepted only when the stream is ready and
the lighting heuristic's capture flag is on or the explicit override is
set; a non-ready stream yields the initializing notice, and an unfavorable
heuristic without override yields the lighting notice — in both rejections
the capture callback is never reached. -/
theorem capture_guard (m : LightingMetrics) (ready force : Bool) :
    (captureImage (detectTick m ready force) = CaptureOutcome.accepted →
      ready = true ∧ ((assessLightingQuality m).canCapture = true ∨ force = true))
    ∧ (ready = false →
      captureImage (detectTick m ready force) = CaptureOutcome.rejectedNotReady)
    ∧ ((assessLightingQuality m).canCapture = false → force = false → ready = true →
      captureImage (detectTick m ready force)
        = CaptureOutcome.rejectedLighting (assessLightingQuality m).message) := by
  have hlink : cardDetected m force = true →
      (assessLightingQuality m).canCapture = true := by
    intro h
    unfold cardDetected at h
    simp only [Bool.and_eq_true] at h
    exact assess_canCapture_of_hasContrast m h.1
  refine ⟨?_, ?_, ?_⟩ <;>
    cases hcd : cardDetected m force <;>
      cases hcc : (assessLightingQuality m).canCapture <;>
      cases ready <;> cases force <;>
      simp_all [captureImage, detectTick]

/-- Witness for C7: a zero-metrics frame (capture flag off) is rejected
with the lighting notice when ready and with the initializing notice when
not; a contrasty well-lit frame is accepted, and the acceptance implies the
guard's conditions. -/
theorem capture_guard_witness :
    ((assessLightingQuality (LightingMetrics.mk 0 0 0 1 false false)).canCapture = false
      ∧ captureImage (detectTick (LightingMetrics.mk 0 0 0 1 false false) false false)
          = CaptureOutcome.rejectedNotReady
      ∧ captureImage (detectTick (LightingMetrics.mk 0 0 0 1 false false) true false)
          = CaptureOutcome.rejectedLighting
              (assessLightingQuality (LightingMetrics.mk 0 0 0 1 false false)).message)
    ∧ (captureImage (detectTick (LightingMetrics.mk 100 500 (1/2) 0 true true) true false)
          = CaptureOutcome.accepted
      ∧ ((assessLightingQuality
            (LightingMetrics.mk 100 500 (1/2) 0 true true)).canCapture = true
          ∨ false = true)) := by
  have hcc : (assessLightingQuality (LightingMetrics.mk 0 0 0 1 false false)).canCapture
      = false := by
    unfold assessLightingQuality
    norm_num
  have hacc : captureImage
      (detectTick (LightingMetrics.mk 100 500 (1/2) 0 true true) true false)
      = CaptureOutcome.accepted := by
    unfold captureImage detectTick cardDetected
    norm_num
  exact ⟨⟨hcc,
    (capture_guard (LightingMetrics.mk 0 0 0 1 false false) false false).2.1 rfl,
    (capture_guard (LightingMetrics.mk 0 0 0 1 false false) true false).2.2 hcc rfl rfl⟩,
   ⟨hacc,
    ((capture_guard (LightingMetrics.mk 100 500 (1/2) 0 true true) true false).1 hacc).2⟩⟩

end AppReady
